import Mathlib

/-!
# RAPID AI engine — verification of the condition-monitoring pipeline

Shallow embedding of the numeric core of the `rapid_ai_engine` Python
package (modules `module0_dataguard`, `moduleA_trend`, `moduleBplus_slope`,
`moduleBpp_sedl`, `moduleC_fusion`, `moduleE_maintenance`, `moduleF_rul`,
and the score-combination step of `main.evaluate`), together with proofs
of the documented behavioural properties.

Modelling conventions, applied uniformly:

* Python floats are modelled as exact rationals (`ℚ`); decimal literals in
  the source are taken at their exact decimal value.  The presentational
  `round(x, k)` calls the source applies to response fields before
  returning them are omitted: they only trim the decimal expansion for
  display and every property below is stated about the underlying value.
* A possibly-NaN sample is `Option ℚ` (`none` models NaN); `clean` values
  are the `some`s, as in the numpy mask `arr[~np.isnan(arr)]`.
* Transcendental primitives (`math.log`, square roots taken by `np.std`,
  the logistic sigmoid) are not definable on `ℚ`; functions that consume
  their *values* take them as explicit function parameters, and theorems
  hold for every instantiation.  Threshold comparisons against a square
  root (for example `std < 1e-6`) are expressed in the equivalent squared
  form (`var < 1e-12`) so that they stay decidable; each such spot is
  noted where it occurs.
* Python dictionaries are association lists (`List (key × value)`); the
  dictionaries built by the engine always have pairwise-distinct keys, so
  theorems about them carry a `Nodup` hypothesis on the key list.
* Response fields that no verified property mentions (trace ids, reason
  strings, execution times, flag records) are omitted from the modelled
  response records.
-/

namespace RapidAI

/-- Python's binary `max` (also what `max` means on floats); spelled as
a comparison so that it evaluates inside the kernel. -/
def qmax (a b : ℚ) : ℚ := if a ≤ b then b else a

/-- Python's binary `min`. -/
def qmin (a b : ℚ) : ℚ := if a ≤ b then a else b

/-- Clamp to `[0, 1]`, the ubiquitous `max(0.0, min(1.0, x))` idiom. -/
def clamp01 (x : ℚ) : ℚ := qmax 0 (qmin 1 x)

/-- Arithmetic mean of a list (`np.mean`); `0/0 = 0` covers the empty list. -/
def qmean (l : List ℚ) : ℚ := l.sum / l.length

/-- Mean of the squares (`np.mean(clean ** 2)`); the source stores its
square root as `rms`, the model keeps the square. -/
def meanSq (l : List ℚ) : ℚ := (l.map (fun x => x ^ 2)).sum / l.length

/-- Sample variance with `ddof=1` (`np.std(clean, ddof=1) ** 2`). -/
def sampleVar (l : List ℚ) : ℚ :=
  (l.map (fun x => (x - qmean l) ^ 2)).sum / ((l.length : ℚ) - 1)

/-- Population variance with `ddof=0` (`np.std(xs) ** 2`). -/
def popVar (l : List ℚ) : ℚ :=
  (l.map (fun x => (x - qmean l) ^ 2)).sum / l.length

/-- Consecutive differences, `np.diff`. -/
def diffList : List ℚ → List ℚ
  | a :: b :: t => (b - a) :: diffList (b :: t)
  | _ => []

/-- Maximum of a list, `np.max` (0 for the empty list, which the source
never queries). -/
def listMax : List ℚ → ℚ
  | [] => 0
  | h :: t => t.foldl qmax h

/-- Minimum of a list, `np.min` (0 for the empty list). -/
def listMin : List ℚ → ℚ
  | [] => 0
  | h :: t => t.foldl qmin h

/-- Largest absolute value, `np.max(np.abs(clean))`. -/
def maxAbs (l : List ℚ) : ℚ := listMax (l.map abs)

/-- The clean (non-NaN) samples of a signal, `arr[~np.isnan(arr)]`. -/
def cleanValues (values : List (Option ℚ)) : List ℚ := values.filterMap id

/-- Fourth central moment divided by the sample count,
`np.mean((clean - mean) ** 4)`. -/
def fourthMoment (l : List ℚ) : ℚ :=
  (l.map (fun x => (x - qmean l) ^ 4)).sum / l.length

-- ─────────────────────────────────────────────────────────────────
-- Shared enumerations (schemas.py)
-- ─────────────────────────────────────────────────────────────────

/-- `SignalType` enumeration from `schemas.py`. -/
inductive SignalType
  | velocity
  | acceleration
  | displacement
  deriving DecidableEq, Repr

/-- `MountType` enumeration from `schemas.py`. -/
inductive MountType
  | stud
  | adhesive
  | magnet
  | handheld
  | pad
  deriving DecidableEq, Repr

/-- `StatusLevel` enumeration from `schemas.py`. -/
inductive StatusLevel
  | passed
  | warn
  | fail
  | block
  deriving DecidableEq, Repr

/-- `SeverityLevel` enumeration from `schemas.py`. -/
inductive SeverityLevel
  | normal
  | watch
  | warning
  | alarm
  deriving DecidableEq, Repr

/-- `TrendClass` enumeration from `schemas.py`. -/
inductive TrendClass
  | Stable
  | Drift
  | Accelerating
  | Chaotic
  | Step
  deriving DecidableEq, Repr

/-- `StabilityState` enumeration from `schemas.py`. -/
inductive StabilityState
  | Stable
  | Drifting
  | Destabilizing
  | Chaotic
  | Critical_Instability
  deriving DecidableEq, Repr

/-- `SystemState` enumeration from `schemas.py`. -/
inductive SystemState
  | stable
  | degrading
  | unstable
  | critical
  | process_driven
  deriving DecidableEq, Repr

-- ─────────────────────────────────────────────────────────────────
-- Module 0 — DataGuard (module0_dataguard.py)
-- ─────────────────────────────────────────────────────────────────

/-- `ContextInput` from `schemas.py`, restricted to the fields DataGuard
reads (`rpm`, `mount_type`). -/
structure ContextInput where
  rpm : Option ℚ := none
  mount_type : Option MountType := none
  deriving DecidableEq, Repr

/-- `SignalInput` from `schemas.py` (the `direction` tag is never read by
the modelled modules). A `none` sample models a NaN reading. -/
structure SignalInput where
  signal_type : SignalType
  unit : String
  sampling_rate_hz : Int
  values : List (Option ℚ)
  deriving DecidableEq, Repr

/-- `Module0Request` from `schemas.py`.  `asset_id`/`timestamp_utc` are
required strings; Python truthiness makes the empty string count as
missing. -/
structure Module0Request where
  asset_id : String
  timestamp_utc : String
  signal : SignalInput
  context : Option ContextInput := none
  deriving DecidableEq, Repr

/-- `SignalMetrics` from `schemas.py`.  `var_s` is the square of the
source's `std_dev` and `mean_sq` the square of its `rms`: the source
stores square roots, the model keeps the (rational) squares and states
every comparison in squared form. -/
structure SignalMetrics where
  sample_count : Nat := 0
  nan_fraction : ℚ := 0
  var_s : ℚ := 0
  mean_sq : ℚ := 0
  peak : ℚ := 0
  kurtosis : ℚ := 0
  clip_fraction : ℚ := 0
  deriving DecidableEq, Repr

/-- `Module0Response`, restricted to the fields the properties mention. -/
structure Module0Response where
  status : StatusLevel
  block : Bool
  quality_score : ℚ
  confidence_modifier : ℚ
  metrics : SignalMetrics
  deriving DecidableEq, Repr

/-- `ALLOWED_UNITS` table. -/
def allowed_units : SignalType → List String
  | SignalType.velocity => ["mm/s", "inch/s", "in/s"]
  | SignalType.acceleration => ["g", "m/s²", "m/s2"]
  | SignalType.displacement => ["µm", "um", "mm", "mil"]

/-- `ALLOWED_FS` table. -/
def allowed_fs : SignalType → List Int
  | SignalType.velocity => [256, 512, 1024, 2048, 2560, 5120, 6400, 10240, 25600, 51200]
  | SignalType.acceleration => [256, 512, 1024, 2048, 2560, 5120, 6400, 10240, 25600, 51200]
  | SignalType.displacement => [256, 512, 1024, 2048, 2560, 5120, 6400]

/-- `_compute_metrics`.  Comparison guards in the source
(`std > 1e-12`, `rms > 1e-12`) become squared guards on the variances;
the kurtosis `mean(((clean-mean)/std)**4) - 3` equals
`fourthMoment / var_s^2 - 3` exactly. -/
def compute_metrics (values : List (Option ℚ)) : SignalMetrics :=
  let n := values.length
  let nanCount := values.countP (fun v => v.isNone)
  let nanFrac : ℚ := if n > 0 then (nanCount : ℚ) / n else 0
  let clean := cleanValues values
  if clean.length < 2 then
    { sample_count := n, nan_fraction := nanFrac }
  else
    let varS := sampleVar clean
    let ms := meanSq clean
    let peak := maxAbs clean
    let kurt : ℚ := if varS > 1 / 10 ^ 24 then fourthMoment clean / varS ^ 2 - 3 else 0
    let clipFrac : ℚ :=
      if clean.length > 10 then
        let maxV := listMax clean
        let minV := listMin clean
        ((clean.filter (fun x => x ≥ 999 / 1000 * maxV ∨ x ≤ 999 / 1000 * minV)).length : ℚ)
          / clean.length
      else 0
    { sample_count := n, nan_fraction := nanFrac, var_s := varS, mean_sq := ms,
      peak := peak, kurtosis := kurt, clip_fraction := clipFrac }

/-- The three hard-block conditions DG_001/DG_002/DG_005 of
`module0_dataguard.run`. -/
def block_condition (r : Module0Request) : Prop :=
  r.asset_id = "" ∨ r.timestamp_utc = "" ∨ r.signal.values.length < 256 ∨
    r.signal.unit ∉ allowed_units r.signal.signal_type

instance (r : Module0Request) : Decidable (block_condition r) := by
  unfold block_condition; infer_instance

/-- The DG_013 guard `request.context and request.context.rpm is None`. -/
def rpm_missing : Option ContextInput → Prop
  | some c => c.rpm = none
  | none => False

instance rpm_missing_dec : (ctx : Option ContextInput) → Decidable (rpm_missing ctx)
  | some c => inferInstanceAs (Decidable (c.rpm = none))
  | none => inferInstanceAs (Decidable False)

/-- The DG_016 guard: magnet mount with `rms > 10`, i.e. `mean_sq > 100`
in squared form. -/
def magnet_risk (ms : ℚ) : Option ContextInput → Prop
  | some c => c.mount_type = some MountType.magnet ∧ ms > 100
  | none => False

instance magnet_risk_dec (ms : ℚ) :
    (ctx : Option ContextInput) → Decidable (magnet_risk ms ctx)
  | some c =>
    inferInstanceAs (Decidable (c.mount_type = some MountType.magnet ∧ ms > 100))
  | none => inferInstanceAs (Decidable False)

/-- The ordered list of triggered soft-penalty factors
(DG_003, DG_004, DG_006, DG_007, DG_009, DG_010, DG_013, DG_016).
Square-root comparisons are in squared form:
`std(diff) < 1e-6` is `popVar (diff) < 1e-12`, `std_dev > 1e-6` is
`var_s > 1e-12`, a z-score above 3 is `(x-mean)^2 > 9 var_s`, and
`crest_factor > 6` (with its `rms > 1e-12` guard) is
`mean_sq > 1e-24 ∧ peak^2 > 36 mean_sq`. -/
def module0_penalties (r : Module0Request) : List ℚ :=
  let m := compute_metrics r.signal.values
  let clean := cleanValues r.signal.values
  (if m.nan_fraction > 1 / 100 then [3 / 5] else []) ++
  (if m.clip_fraction > 1 / 100 then [1 / 2] else []) ++
  (if r.signal.sampling_rate_hz ∉ allowed_fs r.signal.signal_type then [7 / 10] else []) ++
  (if clean.length > 10 ∧ popVar (diffList clean) < 1 / 10 ^ 12 then [2 / 5] else []) ++
  (if clean.length > 30 ∧ m.var_s > 1 / 10 ^ 12 ∧
      ((clean.filter (fun x => (x - qmean clean) ^ 2 > 9 * m.var_s)).length : ℚ)
        / clean.length > 1 / 50 then [9 / 10] else []) ++
  (if m.kurtosis > 8 ∨ (m.mean_sq > 1 / 10 ^ 24 ∧ m.peak ^ 2 > 36 * m.mean_sq)
    then [3 / 5] else []) ++
  (if rpm_missing r.context then [17 / 20] else []) ++
  (if magnet_risk m.mean_sq r.context then [4 / 5] else [])

namespace module0_dataguard

/-- `module0_dataguard.run`: hard blocks first (quality 0), otherwise the
quality score is the clamped product of the triggered penalties, bucketed
into pass/warn/fail at 0.8/0.5.  The DG_016 `rms > 10` test is the
squared `mean_sq > 100`. -/
def run (r : Module0Request) : Module0Response :=
  if block_condition r then
    let metrics := if r.signal.values.length ≥ 2 then compute_metrics r.signal.values else {}
    { status := StatusLevel.block, block := true, quality_score := 0,
      confidence_modifier := 0, metrics := metrics }
  else
    let metrics := compute_metrics r.signal.values
    let quality := clamp01 (module0_penalties r).prod
    let status :=
      if quality ≥ 4 / 5 then StatusLevel.passed
      else if quality ≥ 1 / 2 then StatusLevel.warn
      else StatusLevel.fail
    { status := status, block := false, quality_score := quality,
      confidence_modifier := quality, metrics := metrics }

end module0_dataguard

-- ─────────────────────────────────────────────────────────────────
-- Module A — TrendEngine (moduleA_trend.py)
-- ─────────────────────────────────────────────────────────────────

/-- Least-squares slope of `np.polyfit(arange(n), l, 1)`:
`(n·Σ i·yᵢ − Σ i · Σ yᵢ) / (n·Σ i² − (Σ i)²)`, 0 for a degenerate
denominator (which never occurs for `n ≥ 2`). -/
def lsqSlope (l : List ℚ) : ℚ :=
  let n : ℚ := l.length
  let sx : ℚ := (List.range l.length).map (fun i => (i : ℚ)) |>.sum
  let sxx : ℚ := (List.range l.length).map (fun i => (i : ℚ) ^ 2) |>.sum
  let sxy : ℚ := (l.enum.map (fun p => (p.1 : ℚ) * p.2)).sum
  let denom := n * sxx - sx ^ 2
  if denom = 0 then 0 else (n * sxy - sx * l.sum) / denom

/-- `ModuleARequest`, restricted to the fields the module reads. -/
structure ModuleARequest where
  values : List (Option ℚ)
  baseline : Option ℚ := none
  deriving DecidableEq, Repr

/-- `ModuleAResponse`, restricted to the fields the properties mention
(the RMS/peak/kurtosis echoes are presentational). -/
structure ModuleAResponse where
  severity_score : ℚ := 0
  severity_level : SeverityLevel := SeverityLevel.normal
  trend_classification : String := "unknown"
  deriving DecidableEq, Repr

namespace moduleA_trend

/-- The normalised slope of `moduleA_trend.run`: fitted only from 4
clean samples on, and rescaled by `min(len(clean), 1000)`. -/
def slope_norm (clean : List ℚ) : ℚ :=
  if 4 ≤ clean.length then lsqSlope clean * qmin (clean.length : ℚ) 1000 else 0

/-- The coefficient of variation `std / mean × 100` (0 when the mean is
not above `1e-12`), with the square root as a parameter. -/
def variance_pct (sqrtQ : ℚ → ℚ) (clean : List ℚ) : ℚ :=
  if qmean clean > 1 / 10 ^ 12 then sqrtQ (sampleVar clean) / qmean clean * 100 else 0

/-- The chaotic-classification condition of `moduleA_trend.run`:
coefficient of variation above 60 with `|slope| < 0.05`. -/
def chaotic_cond (sqrtQ : ℚ → ℚ) (clean : List ℚ) : Prop :=
  variance_pct sqrtQ clean > 60 ∧ |slope_norm clean| < 1 / 20

instance (sqrtQ : ℚ → ℚ) (clean : List ℚ) : Decidable (chaotic_cond sqrtQ clean) := by
  unfold chaotic_cond; infer_instance

/-- `moduleA_trend.run`, parametric in the square root used by
`np.sqrt`/`np.std` (`sqrtQ`) and the logistic sigmoid (`logisticQ`);
every theorem below holds for all instantiations.  Mirrors the source:
a positive degradation feeds the logistic booster; baseline-ratio floors
0.9/0.7/0.4 apply at 2.0/1.5/1.2; the chaotic classification forces
severity to 0. -/
def run (sqrtQ logisticQ : ℚ → ℚ) (r : ModuleARequest) : ModuleAResponse :=
  let clean := cleanValues r.values
  if clean.length < 2 then
    {}
  else
    let ms := meanSq clean
    let rms := sqrtQ ms
    let ratio : Option ℚ :=
      match r.baseline with
      | some b => if b > 1 / 10 ^ 12 then some (rms / b) else none
      | none => none
    let degradation : ℚ :=
      match r.baseline with
      | some b => if b > 1 / 10 ^ 12 then (rms - b) / b else 0
      | none => 0
    let slope : ℚ := slope_norm clean
    let sev0 := qmin 1 (qmax 0 (|slope| * 10))
    let sev1 :=
      if degradation > 0 then qmax sev0 (logisticQ (degradation * |slope| * 5)) else sev0
    let sev1 := qmin 1 sev1
    let sev2 :=
      match ratio with
      | some rt =>
        if rt ≥ 2 then qmax sev1 (9 / 10)
        else if rt ≥ 3 / 2 then qmax sev1 (7 / 10)
        else if rt ≥ 6 / 5 then qmax sev1 (2 / 5)
        else sev1
      | none => sev1
    let classification :=
      if chaotic_cond sqrtQ clean then "chaotic"
      else if variance_pct sqrtQ clean > 40 then "process"
      else "machine"
    let sevFinal := if chaotic_cond sqrtQ clean then 0 else sev2
    let level :=
      if sevFinal ≥ 4 / 5 then SeverityLevel.alarm
      else if sevFinal ≥ 1 / 2 then SeverityLevel.warning
      else if sevFinal ≥ 3 / 10 then SeverityLevel.watch
      else SeverityLevel.normal
    { severity_score := sevFinal, severity_level := level,
      trend_classification := classification }

end moduleA_trend

-- ─────────────────────────────────────────────────────────────────
-- Module B+ — SlopeIntelligence (moduleBplus_slope.py)
-- ─────────────────────────────────────────────────────────────────

/-- `ModuleBPlusRequest`, restricted to the value series (timestamps and
window size are never read). -/
structure ModuleBPlusRequest where
  values : List ℚ
  deriving DecidableEq, Repr

/-- `ModuleBPlusResponse`. -/
structure ModuleBPlusResponse where
  slope : ℚ := 0
  slope_change : ℚ := 0
  instability_index : ℚ := 0
  trend_class : TrendClass := TrendClass.Stable
  severity_score : ℚ := 0
  deriving DecidableEq, Repr

/-- Residuals of the whole-window least-squares fit
(`log_vals - polyval(polyfit(x, log_vals, 1), x)`), with the standard
intercept `ȳ − slope·x̄`, `x̄ = (n−1)/2`. -/
def fitResiduals (l : List ℚ) : List ℚ :=
  let s := lsqSlope l
  let b := qmean l - s * (((l.length : ℚ) - 1) / 2)
  l.enum.map (fun p => p.2 - (s * (p.1 : ℚ) + b))

namespace moduleBplus_slope

/-- Log-domain transform `np.log(np.maximum(values, 1e-9))`, parametric
in the logarithm. -/
def logVals (lnQ : ℚ → ℚ) (values : List ℚ) : List ℚ :=
  values.map (fun v => lnQ (qmax v (1 / 10 ^ 9)))

/-- Whole-window slope (computed whenever `n ≥ 2`, else 0). -/
def slopeOf (lnQ : ℚ → ℚ) (values : List ℚ) : ℚ :=
  if 2 ≤ values.length then lsqSlope (logVals lnQ values) else 0

/-- Half-window slope difference (`n ≥ 4` with at least 2 points per
half, else 0); the split point is `n // 2`. -/
def slopeChangeOf (lnQ : ℚ → ℚ) (values : List ℚ) : ℚ :=
  let lv := logVals lnQ values
  let n := values.length
  if 4 ≤ n then
    let mid := n / 2
    if 2 ≤ mid ∧ 2 ≤ n - mid then lsqSlope (lv.drop mid) - lsqSlope (lv.take mid) else 0
  else 0

/-- Residual volatility `np.std(residuals)` (`n ≥ 3`, else 0), with the
square root as a parameter. -/
def volatilityOf (sqrtQ lnQ : ℚ → ℚ) (values : List ℚ) : ℚ :=
  if 3 ≤ values.length then sqrtQ (popVar (fitResiduals (logVals lnQ values))) else 0

/-- Largest absolute consecutive log-difference
(`np.max(np.abs(np.diff(log_vals)))`, `n ≥ 2`, else 0). -/
def maxJumpOf (lnQ : ℚ → ℚ) (values : List ℚ) : ℚ :=
  if 2 ≤ values.length then listMax ((diffList (logVals lnQ values)).map abs) else 0

/-- The ordered classification chain of `moduleBplus_slope.run`
(Step, Chaotic, Accelerating, Drift, Stable — first match wins). -/
def classifyChain (mj vol slope change : ℚ) : TrendClass :=
  if mj > 1 / 2 then TrendClass.Step
  else if vol > 3 / 10 ∧ |slope| < 1 / 50 then TrendClass.Chaotic
  else if |slope| > 1 / 20 ∧ |change| > 1 / 50 then TrendClass.Accelerating
  else if |slope| > 1 / 50 then TrendClass.Drift
  else TrendClass.Stable

/-- `moduleBplus_slope.run`, parametric in logarithm and square root.
Fewer than two points returns the all-default response. -/
def run (lnQ sqrtQ : ℚ → ℚ) (r : ModuleBPlusRequest) : ModuleBPlusResponse :=
  let values := r.values
  if values.length < 2 then
    {}
  else
    let slope := slopeOf lnQ values
    let change := slopeChangeOf lnQ values
    let vol := volatilityOf sqrtQ lnQ values
    let instability := qmin 1 (vol * 5)
    let mj := maxJumpOf lnQ values
    let tc := classifyChain mj vol slope change
    let severity : ℚ :=
      if tc = TrendClass.Chaotic then 3 / 10
      else if tc = TrendClass.Step then 4 / 5
      else if tc = TrendClass.Accelerating then qmin 1 (|slope| * 10 + |change| * 5)
      else if tc = TrendClass.Drift then qmin (7 / 10) (|slope| * 8)
      else qmax 0 (|slope| * 3)
    { slope := slope, slope_change := change, instability_index := instability,
      trend_class := tc, severity_score := qmin 1 severity }

end moduleBplus_slope

-- ─────────────────────────────────────────────────────────────────
-- Module B++ — SEDL / StabilityLens (moduleBpp_sedl.py)
-- ─────────────────────────────────────────────────────────────────

/-- The pre-computed entropy components of a `ModuleBPPRequest.metrics`
dictionary; a key absent from the dictionary reads as the 0.0 default. -/
structure SEDLMetrics where
  SE : ℚ := 0
  TE : ℚ := 0
  DE : ℚ := 0
  dSE_dt : ℚ := 0
  deriving DecidableEq, Repr

/-- `ModuleBPPRequest`.  Only the pre-computed-metrics branch (option A
of the source) is embedded; the raw-spectra branch computes FFT-based
entropies, which no verified property exercises.  A request with no
metrics leaves all components at 0, as in the source. -/
structure ModuleBPPRequest where
  metrics : Option SEDLMetrics := none
  deriving DecidableEq, Repr

/-- `ModuleBPPResponse`. -/
structure ModuleBPPResponse where
  SE : ℚ := 0
  TE : ℚ := 0
  DE : ℚ := 0
  dSE_dt : ℚ := 0
  SI : ℚ := 1
  stability_state : StabilityState := StabilityState.Stable
  severity_level : SeverityLevel := SeverityLevel.normal
  triggered_rules : List String := []
  deriving DecidableEq, Repr

namespace moduleBpp_sedl

/-- `moduleBpp_sedl.run` on the pre-computed-metrics branch:
`SI = clamp(1 − (0.5·SE + 0.3·TE + 0.2·DE))` and the ordered state rules
SR05 … SR01 (default Stable when none fires). -/
def run (r : ModuleBPPRequest) : ModuleBPPResponse :=
  let SE := (r.metrics.getD {}).SE
  let TE := (r.metrics.getD {}).TE
  let DE := (r.metrics.getD {}).DE
  let dSE_dt := (r.metrics.getD {}).dSE_dt
  let SI := clamp01 (1 - (1 / 2 * SE + 3 / 10 * TE + 1 / 5 * DE))
  let sr :=
    if SI ≤ 2 / 5 then
      (StabilityState.Critical_Instability, SeverityLevel.alarm, ["SR05"])
    else if SE ≥ 13 / 20 ∧ (TE ≥ 3 / 5 ∨ DE ≥ 3 / 5) then
      (StabilityState.Chaotic, SeverityLevel.warning, ["SR04"])
    else if dSE_dt ≥ 1 / 50 ∧ SI < 3 / 5 then
      (StabilityState.Destabilizing, SeverityLevel.warning, ["SR03"])
    else if SE > 7 / 20 ∧ SE < 13 / 20 ∧ dSE_dt < 1 / 50 then
      (StabilityState.Drifting, SeverityLevel.watch, ["SR02"])
    else if SE ≤ 7 / 20 ∧ TE < 1 / 2 ∧ SI ≥ 7 / 10 then
      (StabilityState.Stable, SeverityLevel.normal, ["SR01"])
    else
      (StabilityState.Stable, SeverityLevel.normal, [])
  { SE := SE, TE := TE, DE := DE, dSE_dt := dSE_dt, SI := SI,
    stability_state := sr.1, severity_level := sr.2.1, triggered_rules := sr.2.2 }

end moduleBpp_sedl

-- ─────────────────────────────────────────────────────────────────
-- Module C — Fusion (moduleC_fusion.py)
-- ─────────────────────────────────────────────────────────────────

/-- First-match lookup in an association list, the model of a Python
dictionary access. -/
def alookup {α : Type} (k : String) : List (String × α) → Option α
  | [] => none
  | p :: t => if p.1 = k then some p.2 else alookup k t

/-- A per-block input of a fusion request (`BlockInput` in `schemas.py`). -/
structure BlockInput where
  B_match_score : ℚ := 0
  Bplus_trend_class : TrendClass := TrendClass.Stable
  Bplus_confidence : ℚ := 0
  process_correlation : ℚ := 0
  deriving DecidableEq, Repr

/-- A named weight profile as loaded from `profiles.yaml`
(`{"id": ..., "weights": {...}}`). -/
structure Profile where
  id : String
  weights : List (String × ℚ)
  deriving DecidableEq, Repr

/-- `ModuleCRequest`.  `blocks` is the request dictionary as an
association list (Python guarantees distinct keys). -/
structure ModuleCRequest where
  system_type : String
  profile_id : Option String := none
  blocks : List (String × BlockInput)
  stability_state : Option StabilityState := none
  deriving DecidableEq, Repr

/-- Convenience constructor for a fusion request (field order as in
`schemas.py`). -/
def mkModuleCRequest (st : String) (pid : Option String) (stab : Option StabilityState)
    (blocks : List (String × BlockInput)) : ModuleCRequest :=
  { system_type := st, profile_id := pid, blocks := blocks, stability_state := stab }

/-- `ModuleCResponse`, restricted to the fields the properties mention. -/
structure ModuleCResponse where
  profile_id : String
  SSI : ℚ
  system_state : SystemState
  deriving DecidableEq, Repr

namespace moduleC_fusion

/-- Block score rules BSR001–BSR007 of `_block_score`. -/
def block_score (b_match : ℚ) (trend : TrendClass) (confidence : ℚ)
    (process_corr : ℚ) : ℚ :=
  if b_match ≥ 9 / 10 then 9 / 10
  else if trend = TrendClass.Accelerating ∧ confidence ≥ 7 / 10 then 17 / 20
  else if trend = TrendClass.Step ∧ confidence ≥ 7 / 10 then 4 / 5
  else if trend = TrendClass.Drift ∧ confidence ≥ 3 / 5 then 13 / 20
  else if trend = TrendClass.Chaotic ∧ process_corr ≥ 7 / 10 then 7 / 20
  else if b_match ≥ 7 / 10 ∧ (trend = TrendClass.Stable ∨ confidence < 1 / 2) then 11 / 20
  else if b_match < 3 / 10 ∧ trend = TrendClass.Stable then 3 / 20
  else 2 / 5

/-- `classify_ssi` from `config.py`: iterate the threshold table in
order, fall through to critical. -/
def classify_ssi (ssi : ℚ) : SystemState :=
  if 0 ≤ ssi ∧ ssi < 3 / 10 then SystemState.stable
  else if 3 / 10 ≤ ssi ∧ ssi < 3 / 5 then SystemState.degrading
  else if 3 / 5 ≤ ssi ∧ ssi < 4 / 5 then SystemState.unstable
  else if 4 / 5 ≤ ssi ∧ ssi < 101 / 100 then SystemState.critical
  else SystemState.critical

/-- The equal-weight fallback of `_load_and_normalize_weights`: when the
profile supplies no weights and blocks are present, every block gets
`1 / len(blocks)`. -/
def fallback_weights (weights0 : List (String × ℚ))
    (blocks : List (String × BlockInput)) : List (String × ℚ) :=
  if weights0 = [] ∧ blocks ≠ [] then
    blocks.map (fun p => (p.1, 1 / (blocks.length : ℚ)))
  else weights0

/-- The `{k: weights[k] for k in blocks if k in weights}` comprehension:
weights restricted to the blocks actually present. -/
def active_weights (weights1 : List (String × ℚ))
    (blocks : List (String × BlockInput)) : List (String × ℚ) :=
  blocks.filterMap (fun p => (alookup p.1 weights1).map (fun w => (p.1, w)))

/-- The renormalisation step: divide by the weight sum when it is
positive but below 0.99 (missing blocks), else keep as is. -/
def renormalize (active : List (String × ℚ)) : List (String × ℚ) :=
  if 0 < (active.map Prod.snd).sum ∧ (active.map Prod.snd).sum < 99 / 100 then
    active.map (fun q => (q.1, q.2 / (active.map Prod.snd).sum))
  else active

/-- `_load_and_normalize_weights`, parametric in the loaded profile
table: look up the system type (default: the catch-all empty-weight
profile), fall back to equal weights over the supplied blocks, keep only
weights of blocks present, and renormalise when their sum is positive
but below 0.99. -/
def load_and_normalize_weights (profiles : List (String × Profile))
    (system_type : String) (blocks : List (String × BlockInput)) :
    String × List (String × ℚ) :=
  let profile := (alookup system_type profiles).getD { id := "PROFILE_DEFAULT", weights := [] }
  let weights1 := fallback_weights profile.weights blocks
  let weights2 :=
    if weights1 ≠ [] then renormalize (active_weights weights1 blocks) else weights1
  (profile.id, weights2)

/-- `_compute_block_scores`. -/
def compute_block_scores (blocks : List (String × BlockInput)) : List (String × ℚ) :=
  blocks.map (fun p =>
    (p.1, block_score p.2.B_match_score p.2.Bplus_trend_class p.2.Bplus_confidence
      p.2.process_correlation))

/-- `_aggregate_ssi`: weighted sum over the block scores (weight 0 for a
block without a weight entry), clamped to `[0, 1]`. -/
def aggregate_ssi (scores weights : List (String × ℚ)) : ℚ :=
  clamp01 ((scores.map (fun p => ((alookup p.1 weights).getD 0) * p.2)).sum)

/-- `_check_process_driven`: strict majority of blocks with process
correlation at least 0.70. -/
def check_process_driven (blocks : List (String × BlockInput)) : Prop :=
  ((blocks.filter (fun p => p.2.process_correlation ≥ 7 / 10)).length : ℚ) >
    (blocks.length : ℚ) / 2

instance (blocks : List (String × BlockInput)) : Decidable (check_process_driven blocks) := by
  unfold check_process_driven; infer_instance

/-- `moduleC_fusion.run`, parametric in the profile table: weighted SSI,
the Critical_Instability gating floor at 0.70, and the system state
(process-driven override, else the SSI threshold classification).
`request.profile_id or default` treats the empty string as unset. -/
def run (profiles : List (String × Profile)) (r : ModuleCRequest) : ModuleCResponse :=
  let pw := load_and_normalize_weights profiles r.system_type r.blocks
  let profile_id :=
    match r.profile_id with
    | some s => if s = "" then pw.1 else s
    | none => pw.1
  let scores := compute_block_scores r.blocks
  let ssi0 := aggregate_ssi scores pw.2
  let ssi :=
    if r.stability_state = some StabilityState.Critical_Instability then qmax ssi0 (7 / 10)
    else ssi0
  let state :=
    if check_process_driven r.blocks then SystemState.process_driven else classify_ssi ssi
  { profile_id := profile_id, SSI := ssi, system_state := state }

end moduleC_fusion

-- ─────────────────────────────────────────────────────────────────
-- Module E — MaintenancePlan (moduleE_maintenance.py)
-- ─────────────────────────────────────────────────────────────────

/-- `ModuleERequest`, restricted to the priority inputs (the diagnosis
string only drives action selection, which no verified property
mentions). -/
structure ModuleERequest where
  severity_score : ℚ := 1 / 2
  confidence : ℚ := 7 / 10
  criticality : ℚ := 3 / 5
  urgency : ℚ := 1 / 2
  safety_flag : Bool := false
  spares_ready : Bool := true
  manpower_ready : Bool := true
  deriving DecidableEq, Repr

/-- `ModuleEResponse`, restricted to the priority score and window that
every generated plan item carries. -/
structure ModuleEResponse where
  priority_score : ℚ
  window : String
  deriving DecidableEq, Repr

namespace moduleE_maintenance

/-- The weighted base `0.45·S + 0.25·C + 0.20·K + 0.10·U`. -/
def weighted_base (r : ModuleERequest) : ℚ :=
  9 / 20 * r.severity_score + 1 / 4 * r.confidence + 1 / 5 * r.criticality +
    1 / 10 * r.urgency

/-- The priority `P = clamp(100 · base · M_safe · R_sp · R_mp, 0, 100)`
of `moduleE_maintenance.run`. -/
def priority (r : ModuleERequest) : ℚ :=
  let M_safe : ℚ := if r.safety_flag then 3 / 2 else 1
  let R_sp : ℚ := if r.spares_ready then 1 else 7 / 10
  let R_mp : ℚ := if r.manpower_ready then 1 else 7 / 10
  qmax 0 (qmin 100 (100 * weighted_base r * M_safe * R_sp * R_mp))

/-- `_priority_window`. -/
def priority_window (p : ℚ) : String :=
  if p ≥ 85 then "Immediate"
  else if p ≥ 70 then "24 hours"
  else if p ≥ 50 then "7 days"
  else "Next shutdown"

/-- `moduleE_maintenance.run`: the action-selection keyword scan is
omitted (no verified property mentions it); every plan item shares this
priority score and window. -/
def run (r : ModuleERequest) : ModuleEResponse :=
  { priority_score := priority r, window := priority_window (priority r) }

end moduleE_maintenance

-- ─────────────────────────────────────────────────────────────────
-- Module F — ReliabilityProjection (moduleF_rul.py)
-- ─────────────────────────────────────────────────────────────────

/-- `ModuleFRequest`, restricted to the RUL-model inputs (the Weibull
submodel consumes the remaining fields through rational powers and is
outside the embedded fragment). -/
structure ModuleFRequest where
  severity_score : ℚ := 0
  confidence : ℚ := 0
  slope_log : ℚ := 0
  slope_change : ℚ := 0
  instability_index_NLI : ℚ := 0
  criticality : ℚ := 3 / 5
  current_value : ℚ := 0
  failure_threshold : ℚ := 0
  deriving DecidableEq, Repr

/-- `ModuleFResponse`, restricted to the RUL, risk index and window
(the 30-day failure probability needs `exp` and the Weibull metrics need
rational powers, which no verified property mentions). -/
structure ModuleFResponse where
  RUL_days : ℚ
  risk_index : ℚ
  recommended_window : String
  deriving DecidableEq, Repr

namespace moduleF_rul

/-- `_safe_ln_ratio`, parametric in the logarithm: 0 when either side is
at most `1e-12`, else `ln(threshold / current)`. -/
def safe_ln_ratio (lnQ : ℚ → ℚ) (threshold current : ℚ) : ℚ :=
  if current ≤ 1 / 10 ^ 12 ∨ threshold ≤ 1 / 10 ^ 12 then 0 else lnQ (threshold / current)

/-- `moduleF_rul.run`, parametric in the logarithm: the three RUL
sub-models (already-failed 0, flat-slope 3650-day cap, accelerating or
linear projection with the instability shortening), clamped to
`[0, 3650]`. -/
def run (lnQ : ℚ → ℚ) (r : ModuleFRequest) : ModuleFResponse :=
  let lnRatio := safe_ln_ratio lnQ r.failure_threshold r.current_value
  let rul0 : ℚ :=
    if r.current_value ≥ r.failure_threshold then 0
    else if |r.slope_log| < 1 / 10 ^ 9 then 3650
    else
      let base :=
        if r.slope_change ≥ 1 / 100 then
          let eff := r.slope_log + r.slope_change
          if eff > 1 / 10 ^ 9 then lnRatio / eff else 3650
        else lnRatio / r.slope_log
      if r.instability_index_NLI ≥ 3 / 5 then base * (1 - r.instability_index_NLI) else base
  let rul := qmax 0 (qmin 3650 rul0)
  let window :=
    if rul < 7 then "Immediate"
    else if rul < 30 then "Urgent (< 30 days)"
    else if rul < 180 then "Planned"
    else "Monitor"
  { RUL_days := rul,
    risk_index := qmax 0 (qmin 100 (100 * r.severity_score * r.criticality)),
    recommended_window := window }

end moduleF_rul

-- ─────────────────────────────────────────────────────────────────
-- main.evaluate — final severity / confidence combination
-- ─────────────────────────────────────────────────────────────────

/-- `ModuleBResponse`, restricted to the aggregate confidence (the
maximum matched-rule base severity). -/
structure ModuleBResponse where
  confidence : ℚ := 0
  deriving DecidableEq, Repr

/-- The two combined scores `main.evaluate` returns. -/
structure FinalScores where
  final_severity_score : ℚ
  confidence : ℚ
  deriving DecidableEq, Repr

/-- The effective-severity and confidence combination step of
`main.evaluate` on the non-blocked path: `b_match` is the Python
truthiness idiom `mB.confidence if mB.confidence else 0.0`,
`S_eff = S_fusion × Q_data`, and
`C_final = Q_data × (1 − ∏ (1 − clamp(cᵢ)))` over
`[B+ severity, B++ SI, b_match]`. -/
def evaluate_combine (m0 : Module0Response) (mA : ModuleAResponse) (mB : ModuleBResponse)
    (mBp : ModuleBPlusResponse) (mBpp : ModuleBPPResponse) : FinalScores :=
  let quality := m0.quality_score
  let b_match := if mB.confidence = 0 then 0 else mB.confidence
  let s_eff := mA.severity_score * quality
  let c_values := [mBp.severity_score, mBpp.SI, b_match]
  let prod_1_minus := (c_values.map (fun c => 1 - qmin 1 (qmax 0 c))).prod
  { final_severity_score := s_eff, confidence := quality * (1 - prod_1_minus) }

-- ─────────────────────────────────────────────────────────────────
-- Concrete requests used by closed statements
-- ─────────────────────────────────────────────────────────────────

/-- Instantiation of a transcendental function parameter (logarithm,
square root, logistic) used by closed statements; every closed statement
below that mentions it only exercises code paths whose result does not
depend on the parameter's values. -/
def stubFn : ℚ → ℚ := fun _ => 0

/-- The worked SEDL scenario of the specification:
`SE=0.4, TE=0.3, DE=0.2, dSE/dt=0`. -/
def sedlScenarioRequest : ModuleBPPRequest :=
  { metrics := some { SE := 2 / 5, TE := 3 / 10, DE := 1 / 5, dSE_dt := 0 } }

/-- A reliability request whose RUL is 0 although the current value is
still below the failure threshold (negative slope, degenerate
`_safe_ln_ratio` guard). -/
def rulZeroRequest : ModuleFRequest :=
  { slope_log := 1, current_value := 1 / 10 ^ 13, failure_threshold := 5 / 10 ^ 13 }

/-- A reliability request whose RUL hits the 3650-day cap although the
slope is far from zero (accelerating model with non-positive effective
slope). -/
def rulCapRequest : ModuleFRequest :=
  { slope_log := -1 / 50, slope_change := 1 / 50, current_value := 1 / 10 ^ 13,
    failure_threshold := 8 }

/-- The severity the specification's words prescribe: the least-squares
per-sample slope of the clean values rescaled to a per-1000-samples
scale (multiplied by 1000), then `clamp(|·| × 10, 0, 1)`.  Named
definition written from the specification, for comparison against the
source's `moduleA_trend.run`. -/
def specTrendSeverity (values : List (Option ℚ)) : ℚ :=
  clamp01 (|lsqSlope (cleanValues values) * 1000| * 10)

/-- Four clean samples rising by 0.001 per sample around the value 10:
the per-sample least-squares slope is exactly 1/1000. -/
def trendCexRequest : ModuleARequest :=
  { values := [some 10, some (10 + 1 / 1000), some (10 + 2 / 1000), some (10 + 3 / 1000)] }

/-- A DataGuard request blocked by its sample count (empty signal). -/
def dgBlockedRequest : Module0Request :=
  { asset_id := "A1", timestamp_utc := "2026-01-01T00:00:00Z",
    signal := { signal_type := SignalType.velocity, unit := "mm/s",
                sampling_rate_hz := 1024, values := [] } }

/-- A constant 256-sample signal (value 5 throughout): long enough to
pass the hard blocks; its flatline and clipping penalties trigger, no
others. -/
def dgConstValues : List (Option ℚ) := List.replicate 256 (some 5)

/-- The signal record around `dgConstValues` (valid unit and sampling
rate for velocity). -/
def dgConstSignal : SignalInput :=
  { signal_type := SignalType.velocity, unit := "mm/s", sampling_rate_hz := 1024,
    values := dgConstValues }

/-- Non-blocked DataGuard request with no context (so no RPM penalty). -/
def dgConstRequest : Module0Request :=
  { asset_id := "A1", timestamp_utc := "2026-01-01T00:00:00Z", signal := dgConstSignal }

/-- The same request with a context whose RPM is absent: exactly one
more penalty (DG_013) triggers than for `dgConstRequest`. -/
def dgConstRpmRequest : Module0Request :=
  { asset_id := "A1", timestamp_utc := "2026-01-01T00:00:00Z", signal := dgConstSignal,
    context := some {} }

/-- A one-profile table for closed fusion statements. -/
def fusionProfilesW : List (String × Profile) :=
  [("pump_train", { id := "P1", weights := [("compA", 3 / 5), ("compB", 2 / 5)] })]

/-- A drifting block with moderate confidence (block score 0.65). -/
def fusionBlockA : BlockInput :=
  { B_match_score := 1 / 2, Bplus_trend_class := TrendClass.Drift,
    Bplus_confidence := 13 / 20, process_correlation := 0 }

/-- A strongly matched stable block (block score 0.90). -/
def fusionBlockB : BlockInput :=
  { B_match_score := 95 / 100, Bplus_trend_class := TrendClass.Stable,
    Bplus_confidence := 0, process_correlation := 0 }

/-- A maintenance request with every field at its schema default. -/
def defaultERequest : ModuleERequest := {}

/-- A maintenance request saturating the weighted base with the safety
flag set, spares not ready but manpower ready. -/
def maintenanceOnePenaltyRequest : ModuleERequest :=
  { severity_score := 1, confidence := 1, criticality := 1, urgency := 1,
    safety_flag := true, spares_ready := false, manpower_ready := true }

/-- A maintenance request saturating the weighted base with the safety
flag set but neither spares nor manpower ready. -/
def maintenanceCapRequest : ModuleERequest :=
  { severity_score := 1, confidence := 1, criticality := 1, urgency := 1,
    safety_flag := true, spares_ready := false, manpower_ready := false }

-- ─────────────────────────────────────────────────────────────────
-- Helper lemmas
-- ─────────────────────────────────────────────────────────────────

theorem qmax_eq_max (a b : ℚ) : qmax a b = max a b := by
  unfold qmax
  split
  · exact (max_eq_right (by assumption)).symm
  · exact (max_eq_left (le_of_not_le (by assumption))).symm

theorem qmin_eq_min (a b : ℚ) : qmin a b = min a b := by
  unfold qmin
  split
  · exact (min_eq_left (by assumption)).symm
  · exact (min_eq_right (le_of_not_le (by assumption))).symm

theorem clamp01_of_mem (x : ℚ) (h0 : 0 ≤ x) (h1 : x ≤ 1) : clamp01 x = x := by
  rw [clamp01, qmax_eq_max, qmin_eq_min, min_eq_right h1, max_eq_right h0]

theorem clamp01_nonneg (x : ℚ) : 0 ≤ clamp01 x := by
  rw [clamp01, qmax_eq_max]; exact le_max_left 0 _

theorem clamp01_le_one (x : ℚ) : clamp01 x ≤ 1 := by
  rw [clamp01, qmax_eq_max, qmin_eq_min]
  exact max_le (by norm_num) (min_le_left 1 x)

-- ─────────────────────────────────────────────────────────────────
-- C5 — the SEDL worked scenario
-- ─────────────────────────────────────────────────────────────────

theorem sedl_scenario_eval :
    moduleBpp_sedl.run sedlScenarioRequest =
      { SE := 2 / 5, TE := 3 / 10, DE := 1 / 5, dSE_dt := 0, SI := 67 / 100,
        stability_state := StabilityState.Drifting,
        severity_level := SeverityLevel.watch, triggered_rules := ["SR02"] } := by
  norm_num [moduleBpp_sedl.run, sedlScenarioRequest, clamp01, qmax, qmin]

/-- C5: the specification's worked example claims `SI = 0.73` and state
`Stable` for `SE=0.4, TE=0.3, DE=0.2, dSE/dt=0`; the source computes
`SI = 1 − (0.5·0.4 + 0.3·0.3 + 0.2·0.2) = 0.67` and the ordered state
rules classify this as Drifting, so the claim is false on both counts. -/
theorem sedl_scenario_counterexample :
    ¬((moduleBpp_sedl.run sedlScenarioRequest).SI = 73 / 100 ∧
      (moduleBpp_sedl.run sedlScenarioRequest).stability_state = StabilityState.Stable) := by
  rw [sedl_scenario_eval]
  intro h
  exact absurd h.1 (by norm_num)

/-- C5 (amended): for the input `SE=0.4, TE=0.3, DE=0.2, dSE/dt=0` the
Stability Index is `1 − (0.5·0.4 + 0.3·0.3 + 0.2·0.2) = 0.67` and the
returned stability state is Drifting (rule SR02). -/
theorem sedl_scenario_value :
    (moduleBpp_sedl.run sedlScenarioRequest).SI = 67 / 100 ∧
    (moduleBpp_sedl.run sedlScenarioRequest).stability_state = StabilityState.Drifting := by
  rw [sedl_scenario_eval]
  exact ⟨rfl, rfl⟩

-- ─────────────────────────────────────────────────────────────────
-- C3 — ReliabilityProjection RUL boundary cases
-- ─────────────────────────────────────────────────────────────────

/-- C3 (counterexample): the claimed equivalences fail in the reverse
direction.  With `current = 1e-13 < threshold = 5e-13` and slope 1 the
linear model divides the guarded-to-zero log ratio and returns RUL 0
without the value having reached the threshold; with slope `-0.02` and
slope-change `+0.02` the accelerating model's non-positive effective
slope falls back to the 3650-day cap although `|slope| ≥ 1e-9`. -/
theorem rul_iff_counterexample :
    (moduleF_rul.run stubFn rulZeroRequest).RUL_days = 0 ∧
    ¬(rulZeroRequest.current_value ≥ rulZeroRequest.failure_threshold) ∧
    (moduleF_rul.run stubFn rulCapRequest).RUL_days = 3650 ∧
    ¬(|rulCapRequest.slope_log| < 1 / 10 ^ 9) := by
  have habs : |(1 : ℚ) / 50| = 1 / 50 := abs_of_nonneg (by norm_num)
  norm_num [moduleF_rul.run, moduleF_rul.safe_ln_ratio, rulZeroRequest, rulCapRequest,
    stubFn, qmax, qmin, habs]

/-- C3 (amended): the two sub-model selections hold as implications, not
as equivalences: a request at or above its failure threshold returns
RUL 0, and a request below the threshold with `|slope_log| < 1e-9`
returns the 3650-day cap.  The converses are false (see the
counterexample): a negative slope or the accelerating model's fallback
can also produce 0 or 3650. -/
theorem rul_zero_and_cap_forward (lnQ : ℚ → ℚ) (r : ModuleFRequest) :
    (r.current_value ≥ r.failure_threshold → (moduleF_rul.run lnQ r).RUL_days = 0) ∧
    (r.current_value < r.failure_threshold → |r.slope_log| < 1 / 10 ^ 9 →
      (moduleF_rul.run lnQ r).RUL_days = 3650) := by
  constructor
  · intro h
    simp only [moduleF_rul.run, if_pos h]
    norm_num [qmax, qmin]
  · intro h hs
    simp only [moduleF_rul.run, if_neg (not_le.mpr h), if_pos hs]
    norm_num [qmax, qmin]

/-- Closed instance of `rul_zero_and_cap_forward`: an already-failed
request (current 5, threshold 3) returns RUL 0 and a flat-slope request
(current 1, threshold 2, slope 0) returns the cap. -/
theorem rul_zero_and_cap_forward_witness :
    (moduleF_rul.run stubFn { current_value := 5, failure_threshold := 3 }).RUL_days = 0 ∧
    (moduleF_rul.run stubFn { current_value := 1, failure_threshold := 2 }).RUL_days = 3650 := by
  constructor
  · exact (rul_zero_and_cap_forward stubFn _).1 (by norm_num)
  · exact (rul_zero_and_cap_forward stubFn _).2 (by norm_num) (by norm_num)

-- ─────────────────────────────────────────────────────────────────
-- C7 — MaintenancePlan priority monotonicity and cap
-- ─────────────────────────────────────────────────────────────────

theorem priority_modifier_pos (r : ModuleERequest) :
    0 < (if r.safety_flag then (3 : ℚ) / 2 else 1) *
      ((if r.spares_ready then (1 : ℚ) else 7 / 10) *
        (if r.manpower_ready then (1 : ℚ) else 7 / 10)) := by
  split <;> split <;> split <;> norm_num

theorem priority_mono_of_base_le (r₁ r₂ : ModuleERequest)
    (hsafe : r₁.safety_flag = r₂.safety_flag) (hsp : r₁.spares_ready = r₂.spares_ready)
    (hmp : r₁.manpower_ready = r₂.manpower_ready)
    (hb : moduleE_maintenance.weighted_base r₁ ≤ moduleE_maintenance.weighted_base r₂) :
    moduleE_maintenance.priority r₁ ≤ moduleE_maintenance.priority r₂ := by
  unfold moduleE_maintenance.priority
  rw [hsafe, hsp, hmp, qmax_eq_max, qmax_eq_max, qmin_eq_min, qmin_eq_min]
  refine max_le_max le_rfl (min_le_min le_rfl ?_)
  have hM := priority_modifier_pos r₂
  calc 100 * moduleE_maintenance.weighted_base r₁ *
        (if r₂.safety_flag then (3 : ℚ) / 2 else 1) *
        (if r₂.spares_ready then (1 : ℚ) else 7 / 10) *
        (if r₂.manpower_ready then (1 : ℚ) else 7 / 10)
      = (moduleE_maintenance.weighted_base r₁) *
        (100 * ((if r₂.safety_flag then (3 : ℚ) / 2 else 1) *
          ((if r₂.spares_ready then (1 : ℚ) else 7 / 10) *
            (if r₂.manpower_ready then (1 : ℚ) else 7 / 10)))) := by ring
    _ ≤ (moduleE_maintenance.weighted_base r₂) *
        (100 * ((if r₂.safety_flag then (3 : ℚ) / 2 else 1) *
          ((if r₂.spares_ready then (1 : ℚ) else 7 / 10) *
            (if r₂.manpower_ready then (1 : ℚ) else 7 / 10)))) := by
        exact mul_le_mul_of_nonneg_right hb (by positivity)
    _ = 100 * moduleE_maintenance.weighted_base r₂ *
        (if r₂.safety_flag then (3 : ℚ) / 2 else 1) *
        (if r₂.spares_ready then (1 : ℚ) else 7 / 10) *
        (if r₂.manpower_ready then (1 : ℚ) else 7 / 10) := by ring

/-- C7 (counterexample): with severity, confidence, criticality and
urgency all 1 the weighted base is exactly 1.0 and the safety multiplier
applies, yet with neither spares nor manpower ready the priority is
`100 · 1 · 1.5 · 0.7 · 0.7 = 73.5`, not the claimed 100. -/
theorem maintenance_priority_counterexample :
    moduleE_maintenance.weighted_base maintenanceCapRequest = 1 ∧
    maintenanceCapRequest.safety_flag = true ∧
    moduleE_maintenance.priority maintenanceCapRequest = 147 / 2 ∧
    ((147 : ℚ) / 2 ≠ 100) := by
  refine ⟨by norm_num [moduleE_maintenance.weighted_base, maintenanceCapRequest], rfl, ?_, by norm_num⟩
  norm_num [moduleE_maintenance.priority, moduleE_maintenance.weighted_base,
    maintenanceCapRequest, qmax, qmin]

/-- C7 (amended): the priority is monotonically non-decreasing in each of
severity, confidence, criticality and urgency with the other inputs held
fixed, and it equals exactly 100.0 once the weighted base reaches 1.0
with the safety multiplier applied, provided at most one of the
spares/manpower readiness penalties is in force (with both penalties the
multiplier `1.5 · 0.7 · 0.7 = 0.735` drops the score to 73.5). -/
theorem maintenance_priority_monotone_and_cap (r : ModuleERequest) (s c k u : ℚ) :
    (r.severity_score ≤ s →
      moduleE_maintenance.priority r ≤
        moduleE_maintenance.priority { r with severity_score := s }) ∧
    (r.confidence ≤ c →
      moduleE_maintenance.priority r ≤
        moduleE_maintenance.priority { r with confidence := c }) ∧
    (r.criticality ≤ k →
      moduleE_maintenance.priority r ≤
        moduleE_maintenance.priority { r with criticality := k }) ∧
    (r.urgency ≤ u →
      moduleE_maintenance.priority r ≤
        moduleE_maintenance.priority { r with urgency := u }) ∧
    (1 ≤ moduleE_maintenance.weighted_base r → r.safety_flag = true →
      (r.spares_ready = true ∨ r.manpower_ready = true) →
      moduleE_maintenance.priority r = 100) := by
  refine ⟨?_, ?_, ?_, ?_, ?_⟩
  · intro h
    exact priority_mono_of_base_le _ _ rfl rfl rfl
      (by unfold moduleE_maintenance.weighted_base; dsimp only; nlinarith)
  · intro h
    exact priority_mono_of_base_le _ _ rfl rfl rfl
      (by unfold moduleE_maintenance.weighted_base; dsimp only; nlinarith)
  · intro h
    exact priority_mono_of_base_le _ _ rfl rfl rfl
      (by unfold moduleE_maintenance.weighted_base; dsimp only; nlinarith)
  · intro h
    exact priority_mono_of_base_le _ _ rfl rfl rfl
      (by unfold moduleE_maintenance.weighted_base; dsimp only; nlinarith)
  · intro hb hsafe hready
    unfold moduleE_maintenance.priority
    rw [hsafe]
    have h100 : (100 : ℚ) ≤ 100 * moduleE_maintenance.weighted_base r * (3 / 2) *
        (if r.spares_ready then (1 : ℚ) else 7 / 10) *
        (if r.manpower_ready then (1 : ℚ) else 7 / 10) := by
      rcases hready with h | h <;>
        simp only [h, if_true] <;> split <;> nlinarith
    simp only [if_true]
    rw [qmin_eq_min, min_eq_left h100, qmax_eq_max, max_eq_right (by norm_num)]

-- ─────────────────────────────────────────────────────────────────
-- C10 — final severity / confidence combination
-- ─────────────────────────────────────────────────────────────────

theorem qmin_qmax_clamp (c : ℚ) : qmin 1 (qmax 0 c) = clamp01 c := by
  rw [clamp01, qmin_eq_min, qmax_eq_max, qmin_eq_min, qmax_eq_max]
  rcases le_total c 0 with h | h
  · rw [max_eq_left h, min_eq_right (show (0 : ℚ) ≤ 1 by norm_num),
      min_eq_right (h.trans (by norm_num)), max_eq_left h]
  · rw [max_eq_right h, max_eq_right (le_min (by norm_num) h)]

/-- C10: on the non-blocked pipeline path the final severity score is
the TrendEngine severity multiplied by the DataGuard quality score, and
the final confidence is
`quality × (1 − (1−c_B)·(1−c_B+)·(1−c_B++))` with the InitiatorRules
confidence, the SlopeIntelligence severity score and the StabilityLens
Stability Index each clamped to `[0, 1]` before combining. -/
theorem evaluate_combine_formulas (m0 : Module0Response) (mA : ModuleAResponse)
    (mB : ModuleBResponse) (mBp : ModuleBPlusResponse) (mBpp : ModuleBPPResponse) :
    (evaluate_combine m0 mA mB mBp mBpp).final_severity_score =
      mA.severity_score * m0.quality_score ∧
    (evaluate_combine m0 mA mB mBp mBpp).confidence =
      m0.quality_score * (1 - (1 - clamp01 mB.confidence) *
        (1 - clamp01 mBp.severity_score) * (1 - clamp01 mBpp.SI)) := by
  constructor
  · rfl
  · simp only [evaluate_combine, List.map_cons, List.map_nil, List.prod_cons,
      List.prod_nil, qmin_qmax_clamp]
    by_cases h : mB.confidence = 0
    · simp only [h, ite_self]
      rw [show clamp01 0 = 0 by norm_num [clamp01, qmax, qmin]]
      ring
    · simp only [if_neg h]
      ring

-- ─────────────────────────────────────────────────────────────────
-- C8 — SlopeIntelligence classification chain
-- ─────────────────────────────────────────────────────────────────

theorem bplus_trend_class_eq_chain (lnQ sqrtQ : ℚ → ℚ) (r : ModuleBPlusRequest) :
    (moduleBplus_slope.run lnQ sqrtQ r).trend_class =
      moduleBplus_slope.classifyChain (moduleBplus_slope.maxJumpOf lnQ r.values)
        (moduleBplus_slope.volatilityOf sqrtQ lnQ r.values)
        (moduleBplus_slope.slopeOf lnQ r.values)
        (moduleBplus_slope.slopeChangeOf lnQ r.values) := by
  unfold moduleBplus_slope.run
  dsimp only
  split
  · rename_i h
    have h2 : ¬2 ≤ r.values.length := by omega
    have h3 : ¬3 ≤ r.values.length := by omega
    have h4 : ¬4 ≤ r.values.length := by omega
    simp only [moduleBplus_slope.maxJumpOf, moduleBplus_slope.volatilityOf,
      moduleBplus_slope.slopeOf, moduleBplus_slope.slopeChangeOf,
      if_neg h2, if_neg h3, if_neg h4]
    norm_num [moduleBplus_slope.classifyChain]
  · rfl

/-- C8: for every request exactly one of the five trend classes is
returned, chosen by the ordered predicate chain: Step when the maximum
absolute consecutive log-difference exceeds 0.5; else Chaotic when the
residual volatility exceeds 0.3 and `|slope| < 0.02`; else Accelerating
when `|slope| > 0.05` and `|slope-change| > 0.02`; else Drift when
`|slope| > 0.02`; else Stable.  (A sub-2-point request returns the
default response, whose Stable class agrees with the chain evaluated at
the zero quantities.) -/
theorem slope_trend_class_chain (lnQ sqrtQ : ℚ → ℚ) (r : ModuleBPlusRequest) :
    ((moduleBplus_slope.run lnQ sqrtQ r).trend_class = TrendClass.Step ↔
      moduleBplus_slope.maxJumpOf lnQ r.values > 1 / 2) ∧
    ((moduleBplus_slope.run lnQ sqrtQ r).trend_class = TrendClass.Chaotic ↔
      (¬(moduleBplus_slope.maxJumpOf lnQ r.values > 1 / 2) ∧
        moduleBplus_slope.volatilityOf sqrtQ lnQ r.values > 3 / 10 ∧
        |moduleBplus_slope.slopeOf lnQ r.values| < 1 / 50)) ∧
    ((moduleBplus_slope.run lnQ sqrtQ r).trend_class = TrendClass.Accelerating ↔
      (¬(moduleBplus_slope.maxJumpOf lnQ r.values > 1 / 2) ∧
        ¬(moduleBplus_slope.volatilityOf sqrtQ lnQ r.values > 3 / 10 ∧
          |moduleBplus_slope.slopeOf lnQ r.values| < 1 / 50) ∧
        |moduleBplus_slope.slopeOf lnQ r.values| > 1 / 20 ∧
        |moduleBplus_slope.slopeChangeOf lnQ r.values| > 1 / 50)) ∧
    ((moduleBplus_slope.run lnQ sqrtQ r).trend_class = TrendClass.Drift ↔
      (¬(moduleBplus_slope.maxJumpOf lnQ r.values > 1 / 2) ∧
        ¬(moduleBplus_slope.volatilityOf sqrtQ lnQ r.values > 3 / 10 ∧
          |moduleBplus_slope.slopeOf lnQ r.values| < 1 / 50) ∧
        ¬(|moduleBplus_slope.slopeOf lnQ r.values| > 1 / 20 ∧
          |moduleBplus_slope.slopeChangeOf lnQ r.values| > 1 / 50) ∧
        |moduleBplus_slope.slopeOf lnQ r.values| > 1 / 50)) ∧
    ((moduleBplus_slope.run lnQ sqrtQ r).trend_class = TrendClass.Stable ↔
      (¬(moduleBplus_slope.maxJumpOf lnQ r.values > 1 / 2) ∧
        ¬(moduleBplus_slope.volatilityOf sqrtQ lnQ r.values > 3 / 10 ∧
          |moduleBplus_slope.slopeOf lnQ r.values| < 1 / 50) ∧
        ¬(|moduleBplus_slope.slopeOf lnQ r.values| > 1 / 20 ∧
          |moduleBplus_slope.slopeChangeOf lnQ r.values| > 1 / 50) ∧
        ¬(|moduleBplus_slope.slopeOf lnQ r.values| > 1 / 50))) := by
  rw [bplus_trend_class_eq_chain, moduleBplus_slope.classifyChain]
  split_ifs with h1 h2 h3 h4 <;> simp_all

-- ─────────────────────────────────────────────────────────────────
-- C4 — TrendEngine severity formula
-- ─────────────────────────────────────────────────────────────────

theorem trend_cex_eval :
    moduleA_trend.run stubFn stubFn trendCexRequest =
      { severity_score := 1 / 25, severity_level := SeverityLevel.normal,
        trend_classification := "machine" } := by
  have hclean : cleanValues trendCexRequest.values =
      [10, 10 + 1 / 1000, 10 + 2 / 1000, 10 + 3 / 1000] := by
    simp [cleanValues, trendCexRequest]
  have hslope : lsqSlope [(10 : ℚ), 10001 / 1000, 5001 / 500, 10003 / 1000] = 1 / 1000 := by
    norm_num [lsqSlope, List.range, List.range.loop, List.enum, List.enumFrom]
  unfold moduleA_trend.run
  rw [hclean, show trendCexRequest.baseline = none from rfl]
  norm_num [hslope, stubFn, qmax, qmin, qmean, abs_of_nonneg, moduleA_trend.slope_norm,
    moduleA_trend.variance_pct, moduleA_trend.chaotic_cond]

/-- C4 (counterexample): on four clean samples rising by 0.001 per
sample the source severity is `clamp(|(1/1000)·min(4,1000)|·10) = 0.04`,
while the claimed per-1000-samples normalisation would give
`clamp(|(1/1000)·1000|·10) = 1`; the source normalises the per-sample
slope by `min(len(clean), 1000)`, not by 1000, and computes no slope at
all for 2 or 3 clean samples. -/
theorem trend_severity_counterexample :
    trendCexRequest.baseline = none ∧
    2 ≤ (cleanValues trendCexRequest.values).length ∧
    (moduleA_trend.run stubFn stubFn trendCexRequest).trend_classification ≠ "chaotic" ∧
    (moduleA_trend.run stubFn stubFn trendCexRequest).severity_score = 1 / 25 ∧
    specTrendSeverity trendCexRequest.values = 1 ∧
    ((1 : ℚ) / 25 ≠ 1) := by
  have hclean : cleanValues trendCexRequest.values =
      [10, 10 + 1 / 1000, 10 + 2 / 1000, 10 + 3 / 1000] := by
    simp [cleanValues, trendCexRequest]
  have hslope : lsqSlope [(10 : ℚ), 10001 / 1000, 5001 / 500, 10003 / 1000] = 1 / 1000 := by
    norm_num [lsqSlope, List.range, List.range.loop, List.enum, List.enumFrom]
  refine ⟨rfl, by rw [hclean]; norm_num, ?_, ?_, ?_, by norm_num⟩
  · rw [trend_cex_eval]
    simp
  · rw [trend_cex_eval]
  · rw [specTrendSeverity, hclean]
    norm_num [hslope, clamp01, qmax, qmin, abs_of_nonneg]

theorem qmin_one_clamp (x : ℚ) : qmin 1 (clamp01 x) = clamp01 x := by
  rw [qmin_eq_min, min_eq_right (clamp01_le_one x)]

theorem trend_classification_chaotic (sqrtQ logisticQ : ℚ → ℚ) (r : ModuleARequest)
    (h2 : ¬(cleanValues r.values).length < 2)
    (hch : moduleA_trend.chaotic_cond sqrtQ (cleanValues r.values)) :
    (moduleA_trend.run sqrtQ logisticQ r).trend_classification = "chaotic" := by
  unfold moduleA_trend.run
  dsimp only
  rw [if_neg h2]
  dsimp only
  rw [if_pos hch]

/-- C4 (amended): with no baseline supplied and no chaotic override, the
severity equals `clamp(|slope| × 10, 0, 1)` where the slope is the
least-squares per-sample slope of the clean values rescaled by
`min(len(clean), 1000)` — not by a fixed 1000 — and is only computed for
4 or more clean samples: for 2 or 3 clean samples the severity is 0. -/
theorem trend_severity_formula (sqrtQ logisticQ : ℚ → ℚ) (r : ModuleARequest)
    (hb : r.baseline = none)
    (hc : (moduleA_trend.run sqrtQ logisticQ r).trend_classification ≠ "chaotic") :
    (4 ≤ (cleanValues r.values).length →
      (moduleA_trend.run sqrtQ logisticQ r).severity_score =
        clamp01 (|lsqSlope (cleanValues r.values) *
          qmin ((cleanValues r.values).length : ℚ) 1000| * 10)) ∧
    (2 ≤ (cleanValues r.values).length → (cleanValues r.values).length < 4 →
      (moduleA_trend.run sqrtQ logisticQ r).severity_score = 0) := by
  by_cases h2 : (cleanValues r.values).length < 2
  · exact ⟨fun h4 => absurd h4 (by omega), fun h2' _ => absurd h2' (by omega)⟩
  · have hch : ¬moduleA_trend.chaotic_cond sqrtQ (cleanValues r.values) :=
      fun hch => hc (trend_classification_chaotic sqrtQ logisticQ r h2 hch)
    have hsev : (moduleA_trend.run sqrtQ logisticQ r).severity_score =
        clamp01 (|moduleA_trend.slope_norm (cleanValues r.values)| * 10) := by
      unfold moduleA_trend.run
      rw [hb]
      dsimp only
      rw [if_neg h2]
      dsimp only
      rw [if_neg hch, if_neg (lt_irrefl (0 : ℚ))]
      rw [qmin_qmax_clamp, qmin_one_clamp]
    constructor
    · intro h4
      rw [hsev, moduleA_trend.slope_norm, if_pos h4]
    · intro _ h4
      rw [hsev, moduleA_trend.slope_norm, if_neg (by omega)]
      norm_num [clamp01, qmax, qmin]

/-- Closed instance of `trend_severity_formula` at the four-sample
rising signal: the severity evaluates through the
`min(len(clean), 1000)` normalisation. -/
theorem trend_severity_formula_witness :
    (moduleA_trend.run stubFn stubFn trendCexRequest).severity_score =
      clamp01 (|lsqSlope (cleanValues trendCexRequest.values) *
        qmin ((cleanValues trendCexRequest.values).length : ℚ) 1000| * 10) := by
  refine (trend_severity_formula stubFn stubFn trendCexRequest rfl ?_).1 ?_
  · rw [trend_cex_eval]
    simp
  · rw [show cleanValues trendCexRequest.values =
      [10, 10 + 1 / 1000, 10 + 2 / 1000, 10 + 3 / 1000] from by
        simp [cleanValues, trendCexRequest]]
    norm_num

/-- Closed instance of `maintenance_priority_monotone_and_cap`: raising
the default severity 0.5 to 0.75 does not lower the priority, and a
saturated base with the safety flag and manpower ready scores exactly
100. -/
theorem maintenance_priority_monotone_and_cap_witness :
    moduleE_maintenance.priority defaultERequest ≤
      moduleE_maintenance.priority { defaultERequest with severity_score := 3 / 4 } ∧
    moduleE_maintenance.priority maintenanceOnePenaltyRequest = 100 := by
  constructor
  · exact (maintenance_priority_monotone_and_cap defaultERequest (3 / 4) 0 0 0).1
      (by norm_num [defaultERequest])
  · exact (maintenance_priority_monotone_and_cap maintenanceOnePenaltyRequest 0 0 0 0).2.2.2.2
      (by norm_num [moduleE_maintenance.weighted_base, maintenanceOnePenaltyRequest])
      rfl (Or.inr rfl)

-- ─────────────────────────────────────────────────────────────────
-- C2 — DataGuard hard-block characterisation
-- ─────────────────────────────────────────────────────────────────

/-- C2: a DataGuard response blocks exactly when the asset id or
timestamp is missing, the sample count is below 256, or the unit is not
allowed for the signal type — soft penalties never block — and a blocked
response carries quality score 0. -/
theorem dataGuard_block_iff (r : Module0Request) :
    ((module0_dataguard.run r).block = true ↔
      (r.asset_id = "" ∨ r.timestamp_utc = "" ∨ r.signal.values.length < 256 ∨
        r.signal.unit ∉ allowed_units r.signal.signal_type)) ∧
    ((module0_dataguard.run r).block = true →
      (module0_dataguard.run r).quality_score = 0) := by
  unfold module0_dataguard.run
  by_cases h : block_condition r
  · rw [if_pos h]
    exact ⟨⟨fun _ => h, fun _ => rfl⟩, fun _ => rfl⟩
  · rw [if_neg h]
    refine ⟨⟨fun hb => ?_, fun hcond => absurd hcond h⟩, fun hb => ?_⟩
    · simp at hb
    · simp at hb

/-- Closed instance of `dataGuard_block_iff`: the empty-signal request
blocks (0 samples) and returns quality 0. -/
theorem dataGuard_block_iff_witness :
    (module0_dataguard.run dgBlockedRequest).block = true ∧
    (module0_dataguard.run dgBlockedRequest).quality_score = 0 := by
  have hb : (module0_dataguard.run dgBlockedRequest).block = true :=
    (dataGuard_block_iff dgBlockedRequest).1.mpr
      (Or.inr (Or.inr (Or.inl (by norm_num [dgBlockedRequest]))))
  exact ⟨hb, (dataGuard_block_iff dgBlockedRequest).2 hb⟩

-- ─────────────────────────────────────────────────────────────────
-- C6 — DataGuard quality as a product of penalties
-- ─────────────────────────────────────────────────────────────────

theorem mem_ite_singleton {c : Prop} [Decidable c] {a p : ℚ}
    (h : p ∈ (if c then [a] else ([] : List ℚ))) : p = a := by
  split at h
  · simpa using h
  · simp at h

theorem module0_penalties_mem (r : Module0Request) :
    ∀ p ∈ module0_penalties r, 0 < p ∧ p ≤ 1 := by
  intro p hp
  unfold module0_penalties at hp
  simp only [List.mem_append] at hp
  rcases hp with ((((((hp | hp) | hp) | hp) | hp) | hp) | hp) | hp <;>
    (rw [mem_ite_singleton hp]; norm_num)

theorem prod_pos_of_bounds (l : List ℚ) (h : ∀ p ∈ l, 0 < p ∧ p ≤ 1) :
    0 < l.prod ∧ l.prod ≤ 1 := by
  induction l with
  | nil => simp
  | cons a t ih =>
    obtain ⟨ha, ht⟩ := List.forall_mem_cons.mp h
    obtain ⟨h1, h2⟩ := ih ht
    rw [List.prod_cons]
    exact ⟨mul_pos ha.1 h1, mul_le_one₀ ha.2 h1.le h2⟩

theorem prod_le_of_sublist (l₁ l₂ : List ℚ) (h : l₁.Sublist l₂)
    (hb : ∀ p ∈ l₂, 0 < p ∧ p ≤ 1) : l₂.prod ≤ l₁.prod := by
  induction h with
  | slnil => exact le_refl _
  | cons a h ih =>
    obtain ⟨ha, ht⟩ := List.forall_mem_cons.mp hb
    rw [List.prod_cons]
    exact (mul_le_of_le_one_left (prod_pos_of_bounds _ ht).1.le ha.2).trans (ih ht)
  | cons₂ a h ih =>
    obtain ⟨ha, ht⟩ := List.forall_mem_cons.mp hb
    rw [List.prod_cons, List.prod_cons]
    exact mul_le_mul_of_nonneg_left (ih ht) ha.1.le

/-- C6: a non-blocked DataGuard quality score lies in `[0, 1]` and
equals the product of the triggered penalty factors, each of which lies
in `(0, 1]`; and when one request's triggered penalties form a sublist
of another's, the request with more penalties scores no higher. -/
theorem dataGuard_quality_product (r₁ r₂ : Module0Request)
    (h₁ : (module0_dataguard.run r₁).block = false)
    (h₂ : (module0_dataguard.run r₂).block = false) :
    (0 ≤ (module0_dataguard.run r₁).quality_score ∧
      (module0_dataguard.run r₁).quality_score ≤ 1 ∧
      (module0_dataguard.run r₁).quality_score = (module0_penalties r₁).prod ∧
      ∀ p ∈ module0_penalties r₁, 0 < p ∧ p ≤ 1) ∧
    (List.Sublist (module0_penalties r₁) (module0_penalties r₂) →
      (module0_dataguard.run r₂).quality_score ≤
        (module0_dataguard.run r₁).quality_score) := by
  have hnb : ∀ r : Module0Request, (module0_dataguard.run r).block = false →
      ¬block_condition r := by
    intro r hb hc
    unfold module0_dataguard.run at hb
    rw [if_pos hc] at hb
    simp at hb
  have hq : ∀ r : Module0Request, ¬block_condition r →
      (module0_dataguard.run r).quality_score = clamp01 (module0_penalties r).prod := by
    intro r h
    unfold module0_dataguard.run
    rw [if_neg h]
  have hmem₁ := module0_penalties_mem r₁
  have hmem₂ := module0_penalties_mem r₂
  have hp₁ := prod_pos_of_bounds _ hmem₁
  have hp₂ := prod_pos_of_bounds _ hmem₂
  have hq₁ : (module0_dataguard.run r₁).quality_score = (module0_penalties r₁).prod := by
    rw [hq r₁ (hnb r₁ h₁), clamp01_of_mem _ hp₁.1.le hp₁.2]
  have hq₂ : (module0_dataguard.run r₂).quality_score = (module0_penalties r₂).prod := by
    rw [hq r₂ (hnb r₂ h₂), clamp01_of_mem _ hp₂.1.le hp₂.2]
  refine ⟨⟨?_, ?_, hq₁, hmem₁⟩, ?_⟩
  · rw [hq₁]; exact hp₁.1.le
  · rw [hq₁]; exact hp₁.2
  · intro hsub
    rw [hq₁, hq₂]
    exact prod_le_of_sublist _ _ hsub hmem₂

theorem cleanValues_replicate (n : ℕ) (c : ℚ) :
    cleanValues (List.replicate n (some c)) = List.replicate n c := by
  induction n with
  | zero => rfl
  | succ n ih =>
    simp only [List.replicate_succ, cleanValues, List.filterMap_cons] at ih ⊢
    rw [ih]
    rfl

theorem qmean_replicate (n : ℕ) (hn : n ≠ 0) (c : ℚ) :
    qmean (List.replicate n c) = c := by
  rw [qmean, List.sum_replicate, List.length_replicate, nsmul_eq_mul]
  exact mul_div_cancel_left₀ c (Nat.cast_ne_zero.mpr hn)

theorem sampleVar_replicate (n : ℕ) (c : ℚ) : sampleVar (List.replicate n c) = 0 := by
  rcases Nat.eq_zero_or_pos n with h | h
  · subst h; simp [sampleVar, qmean]
  · simp [sampleVar, qmean_replicate n (Nat.pos_iff_ne_zero.mp h) c, List.map_replicate,
      List.sum_replicate]

theorem popVar_replicate (n : ℕ) (c : ℚ) : popVar (List.replicate n c) = 0 := by
  rcases Nat.eq_zero_or_pos n with h | h
  · subst h; simp [popVar, qmean]
  · simp [popVar, qmean_replicate n (Nat.pos_iff_ne_zero.mp h) c, List.map_replicate,
      List.sum_replicate]

theorem fourthMoment_replicate (n : ℕ) (c : ℚ) :
    fourthMoment (List.replicate n c) = 0 := by
  rcases Nat.eq_zero_or_pos n with h | h
  · subst h; simp [fourthMoment, qmean]
  · simp [fourthMoment, qmean_replicate n (Nat.pos_iff_ne_zero.mp h) c, List.map_replicate,
      List.sum_replicate]

theorem meanSq_replicate (n : ℕ) (hn : n ≠ 0) (c : ℚ) :
    meanSq (List.replicate n c) = c ^ 2 := by
  rw [meanSq, List.map_replicate, List.sum_replicate, List.length_replicate, nsmul_eq_mul]
  exact mul_div_cancel_left₀ _ (Nat.cast_ne_zero.mpr hn)

theorem diffList_replicate (n : ℕ) (c : ℚ) :
    diffList (List.replicate (n + 1) c) = List.replicate n 0 := by
  induction n with
  | zero => rfl
  | succ n ih =>
    rw [show List.replicate (n + 1 + 1) c = c :: c :: List.replicate n c by
      simp [List.replicate_succ]]
    rw [show List.replicate (n + 1) c = c :: List.replicate n c from List.replicate_succ c n] at ih
    rw [diffList, ih, sub_self, List.replicate_succ]

theorem foldl_qmax_const (n : ℕ) (c : ℚ) : (List.replicate n c).foldl qmax c = c := by
  induction n with
  | zero => rfl
  | succ n ih =>
    rw [List.replicate_succ, List.foldl_cons, show qmax c c = c by simp [qmax]]
    exact ih

theorem foldl_qmin_const (n : ℕ) (c : ℚ) : (List.replicate n c).foldl qmin c = c := by
  induction n with
  | zero => rfl
  | succ n ih =>
    rw [List.replicate_succ, List.foldl_cons, show qmin c c = c by simp [qmin]]
    exact ih

theorem listMax_replicate (n : ℕ) (c : ℚ) : listMax (List.replicate (n + 1) c) = c := by
  rw [List.replicate_succ, listMax]
  exact foldl_qmax_const n c

theorem listMin_replicate (n : ℕ) (c : ℚ) : listMin (List.replicate (n + 1) c) = c := by
  rw [List.replicate_succ, listMin]
  exact foldl_qmin_const n c

theorem maxAbs_replicate (n : ℕ) (c : ℚ) : maxAbs (List.replicate (n + 1) c) = |c| := by
  rw [maxAbs, List.map_replicate]
  exact listMax_replicate n |c|

theorem countP_none_replicate (n : ℕ) (c : ℚ) :
    (List.replicate n (some c)).countP (fun v => v.isNone) = 0 := by
  induction n with
  | zero => rfl
  | succ n ih => simp [List.replicate_succ, List.countP_cons, ih]

theorem filter_replicate_of_pos {p : ℚ → Bool} {c : ℚ} (h : p c = true) (n : ℕ) :
    (List.replicate n c).filter p = List.replicate n c := by
  induction n with
  | zero => rfl
  | succ n ih => simp [List.replicate_succ, List.filter_cons, h, ih]

theorem dg_const_metrics :
    compute_metrics dgConstValues =
      { sample_count := 256, nan_fraction := 0, var_s := 0, mean_sq := 25, peak := 5,
        kurtosis := 0, clip_fraction := 1 } := by
  have hmax : listMax (List.replicate 256 (5 : ℚ)) = 5 := listMax_replicate 255 5
  have hmin : listMin (List.replicate 256 (5 : ℚ)) = 5 := listMin_replicate 255 5
  have hpeak : maxAbs (List.replicate 256 (5 : ℚ)) = 5 := by
    rw [maxAbs_replicate 255 5]; norm_num
  have hfil : (List.replicate 256 (5 : ℚ)).filter
      (fun x => decide (x ≥ 999 / 1000 * 5 ∨ x ≤ 999 / 1000 * 5)) =
      List.replicate 256 (5 : ℚ) :=
    filter_replicate_of_pos (by norm_num) 256
  unfold compute_metrics dgConstValues
  rw [cleanValues_replicate]
  simp only [List.length_replicate, countP_none_replicate, sampleVar_replicate,
    meanSq_replicate 256 (by norm_num), hmax, hmin, hpeak]
  norm_num [hfil]

theorem dg_const_penalties : module0_penalties dgConstRequest = [1 / 2, 2 / 5] := by
  have hd : diffList (List.replicate 256 (5 : ℚ)) = List.replicate 255 0 :=
    diffList_replicate 255 5
  unfold module0_penalties
  rw [show dgConstRequest.signal.values = dgConstValues from rfl, dg_const_metrics,
    show dgConstRequest.context = none from rfl,
    show dgConstRequest.signal.sampling_rate_hz = 1024 from rfl,
    show dgConstRequest.signal.signal_type = SignalType.velocity from rfl]
  rw [show cleanValues dgConstValues = List.replicate 256 (5 : ℚ) from by
    rw [dgConstValues]; exact cleanValues_replicate 256 5]
  dsimp only
  rw [hd, popVar_replicate]
  norm_num [allowed_fs, rpm_missing, magnet_risk, List.length_replicate]

theorem dg_const_rpm_penalties :
    module0_penalties dgConstRpmRequest = [1 / 2, 2 / 5, 17 / 20] := by
  have hd : diffList (List.replicate 256 (5 : ℚ)) = List.replicate 255 0 :=
    diffList_replicate 255 5
  unfold module0_penalties
  rw [show dgConstRpmRequest.signal.values = dgConstValues from rfl, dg_const_metrics,
    show dgConstRpmRequest.context = some {} from rfl,
    show dgConstRpmRequest.signal.sampling_rate_hz = 1024 from rfl,
    show dgConstRpmRequest.signal.signal_type = SignalType.velocity from rfl]
  rw [show cleanValues dgConstValues = List.replicate 256 (5 : ℚ) from by
    rw [dgConstValues]; exact cleanValues_replicate 256 5]
  dsimp only
  rw [hd, popVar_replicate]
  norm_num [allowed_fs, rpm_missing, magnet_risk, List.length_replicate]

theorem dg_const_not_blocked : ¬block_condition dgConstRequest := by
  have hlen : dgConstRequest.signal.values.length = 256 := by
    rw [show dgConstRequest.signal.values = List.replicate 256 (some (5 : ℚ)) from rfl,
      List.length_replicate]
  unfold block_condition
  rw [hlen]
  push_neg
  exact ⟨by simp [dgConstRequest], by simp [dgConstRequest], by norm_num,
    by simp [dgConstRequest, dgConstSignal, allowed_units]⟩

theorem dg_const_rpm_not_blocked : ¬block_condition dgConstRpmRequest := by
  have hlen : dgConstRpmRequest.signal.values.length = 256 := by
    rw [show dgConstRpmRequest.signal.values = List.replicate 256 (some (5 : ℚ)) from rfl,
      List.length_replicate]
  unfold block_condition
  rw [hlen]
  push_neg
  exact ⟨by simp [dgConstRpmRequest], by simp [dgConstRpmRequest], by norm_num,
    by simp [dgConstRpmRequest, dgConstSignal, allowed_units]⟩

/-- Closed instance of `dataGuard_quality_product`: the constant signal
triggers the clipping and flatline penalties (quality
`0.5 × 0.4 = 0.2`), and adding a context without RPM (one more penalty)
does not raise the score. -/
theorem dataGuard_quality_product_witness :
    (module0_dataguard.run dgConstRequest).quality_score = 1 / 5 ∧
    (module0_dataguard.run dgConstRpmRequest).quality_score ≤
      (module0_dataguard.run dgConstRequest).quality_score := by
  have hb1 : (module0_dataguard.run dgConstRequest).block = false := by
    unfold module0_dataguard.run
    rw [if_neg dg_const_not_blocked]
  have hb2 : (module0_dataguard.run dgConstRpmRequest).block = false := by
    unfold module0_dataguard.run
    rw [if_neg dg_const_rpm_not_blocked]
  obtain ⟨hprops, hmono⟩ :=
    dataGuard_quality_product dgConstRequest dgConstRpmRequest hb1 hb2
  constructor
  · rw [hprops.2.2.1, dg_const_penalties]
    norm_num
  · exact hmono (by
      rw [dg_const_penalties, dg_const_rpm_penalties]
      exact List.sublist_append_left _ _)

-- ─────────────────────────────────────────────────────────────────
-- C1 — Fusion SSI: permutation invariance and the critical floor
-- ─────────────────────────────────────────────────────────────────

theorem alookup_perm {α : Type} {l₁ l₂ : List (String × α)} (h : l₁.Perm l₂) :
    (l₁.map Prod.fst).Nodup → ∀ k, alookup k l₁ = alookup k l₂ := by
  induction h with
  | nil => intro _ k; rfl
  | cons x h ih =>
    intro nd k
    rw [List.map_cons, List.nodup_cons] at nd
    simp only [alookup]
    split
    · rfl
    · exact ih nd.2 k
  | swap x y l =>
    intro nd k
    rw [List.map_cons, List.map_cons, List.nodup_cons, List.nodup_cons] at nd
    have hxy : y.1 ≠ x.1 := fun e => nd.1 (by rw [e]; exact List.mem_cons_self _ _)
    simp only [alookup]
    by_cases h1 : y.1 = k
    · rw [if_pos h1]
      by_cases h2 : x.1 = k
      · exact absurd (h1.trans h2.symm) hxy
      · rw [if_neg h2, if_pos h1]
    · rw [if_neg h1]
      by_cases h2 : x.1 = k
      · rw [if_pos h2, if_pos h2]
      · rw [if_neg h2, if_neg h2, if_neg h1]
  | trans h₁ h₂ ih₁ ih₂ =>
    intro nd k
    exact (ih₁ nd k).trans (ih₂ (((h₁.map Prod.fst).nodup_iff).mp nd) k)

theorem active_keys_sublist (w : List (String × ℚ)) (blocks : List (String × BlockInput)) :
    List.Sublist ((moduleC_fusion.active_weights w blocks).map Prod.fst)
      (blocks.map Prod.fst) := by
  induction blocks with
  | nil => simp [moduleC_fusion.active_weights]
  | cons p t ih =>
    cases hl : alookup p.1 w with
    | none =>
      simp only [moduleC_fusion.active_weights, List.filterMap_cons, hl, Option.map_none,
        List.map_cons] at ih ⊢
      exact ih.cons _
    | some w0 =>
      simp only [moduleC_fusion.active_weights, List.filterMap_cons, hl, Option.map_some,
        List.map_cons] at ih ⊢
      exact ih.cons₂ _

theorem renormalize_keys (a : List (String × ℚ)) :
    (moduleC_fusion.renormalize a).map Prod.fst = a.map Prod.fst := by
  unfold moduleC_fusion.renormalize
  split
  · simp [List.map_map, Function.comp_def]
  · rfl

theorem fallback_lookup_eq (w : List (String × ℚ)) {l₁ l₂ : List (String × BlockInput)}
    (h : l₁.Perm l₂) (nd : (l₁.map Prod.fst).Nodup) (k : String) :
    alookup k (moduleC_fusion.fallback_weights w l₁) =
      alookup k (moduleC_fusion.fallback_weights w l₂) := by
  unfold moduleC_fusion.fallback_weights
  by_cases hw : w = []
  · by_cases hl : l₁ = []
    · have hl2 : l₂ = [] := by rw [hl] at h; exact h.symm.eq_nil
      rw [hl, hl2]
    · have hl2 : l₂ ≠ [] := fun e => hl (by rw [e] at h; exact h.eq_nil)
      rw [if_pos ⟨hw, hl⟩, if_pos ⟨hw, hl2⟩, h.length_eq]
      refine alookup_perm (h.map _) ?_ k
      rw [show (l₁.map fun p => (p.1, 1 / (l₂.length : ℚ))).map Prod.fst = l₁.map Prod.fst by
        simp [List.map_map, Function.comp_def]]
      exact nd
  · rw [if_neg (fun hc => hw hc.1), if_neg (fun hc => hw hc.1)]

theorem fallback_ne_nil_iff (w : List (String × ℚ)) {l₁ l₂ : List (String × BlockInput)}
    (h : l₁.Perm l₂) :
    moduleC_fusion.fallback_weights w l₁ = [] ↔ moduleC_fusion.fallback_weights w l₂ = [] := by
  unfold moduleC_fusion.fallback_weights
  by_cases hw : w = []
  · by_cases hl : l₁ = []
    · have hl2 : l₂ = [] := by rw [hl] at h; exact h.symm.eq_nil
      rw [hl, hl2]
    · have hl2 : l₂ ≠ [] := fun e => hl (by rw [e] at h; exact h.eq_nil)
      rw [if_pos ⟨hw, hl⟩, if_pos ⟨hw, hl2⟩]
      simp [hl, hl2]
  · rw [if_neg (fun hc => hw hc.1), if_neg (fun hc => hw hc.1)]

theorem active_lookup_chain {w₁ w₂ : List (String × ℚ)}
    (hw : ∀ k, alookup k w₁ = alookup k w₂) {l₁ l₂ : List (String × BlockInput)}
    (h : l₁.Perm l₂) :
    moduleC_fusion.active_weights w₁ l₁ =
      moduleC_fusion.active_weights w₂ l₁ ∧
    (moduleC_fusion.active_weights w₂ l₁).Perm (moduleC_fusion.active_weights w₂ l₂) := by
  constructor
  · unfold moduleC_fusion.active_weights
    congr 1
    funext p
    rw [hw p.1]
  · exact h.filterMap _

theorem renormalize_lookup_eq {a₁ a₂ : List (String × ℚ)} (h : a₁.Perm a₂)
    (nd : (a₁.map Prod.fst).Nodup) (k : String) :
    alookup k (moduleC_fusion.renormalize a₁) = alookup k (moduleC_fusion.renormalize a₂) := by
  have hsum : (a₁.map Prod.snd).sum = (a₂.map Prod.snd).sum := (h.map Prod.snd).sum_eq
  unfold moduleC_fusion.renormalize
  rw [hsum]
  split
  · refine alookup_perm (h.map _) ?_ k
    rw [show ((a₁.map fun q => (q.1, q.2 / (a₂.map Prod.snd).sum)).map Prod.fst) =
        a₁.map Prod.fst by simp [List.map_map, Function.comp_def]]
    exact nd
  · exact alookup_perm h nd k

theorem norm_weights_lookup_eq (profiles : List (String × Profile)) (st : String)
    {l₁ l₂ : List (String × BlockInput)} (h : l₁.Perm l₂)
    (nd : (l₁.map Prod.fst).Nodup) (k : String) :
    alookup k (moduleC_fusion.load_and_normalize_weights profiles st l₁).2 =
      alookup k (moduleC_fusion.load_and_normalize_weights profiles st l₂).2 := by
  unfold moduleC_fusion.load_and_normalize_weights
  dsimp only
  have hw := fallback_lookup_eq
    ((alookup st profiles).getD { id := "PROFILE_DEFAULT", weights := [] }).weights h nd
  have hne := fallback_ne_nil_iff
    ((alookup st profiles).getD { id := "PROFILE_DEFAULT", weights := [] }).weights h
  by_cases hnil : moduleC_fusion.fallback_weights
      ((alookup st profiles).getD { id := "PROFILE_DEFAULT", weights := [] }).weights l₁ = []
  · rw [if_neg (fun hc => hc hnil), if_neg (fun hc => hc (hne.mp hnil)), hnil, hne.mp hnil]
  · rw [if_pos hnil, if_pos (fun hc => hnil (hne.mpr hc))]
    obtain ⟨heq, hperm⟩ := active_lookup_chain hw h
    rw [heq]
    refine renormalize_lookup_eq hperm ?_ k
    exact ((active_keys_sublist _ l₁).nodup nd)

theorem aggregate_perm_eq {l₁ l₂ : List (String × BlockInput)} (h : l₁.Perm l₂)
    {W₁ W₂ : List (String × ℚ)} (hW : ∀ k, alookup k W₁ = alookup k W₂) :
    moduleC_fusion.aggregate_ssi (moduleC_fusion.compute_block_scores l₁) W₁ =
      moduleC_fusion.aggregate_ssi (moduleC_fusion.compute_block_scores l₂) W₂ := by
  unfold moduleC_fusion.aggregate_ssi moduleC_fusion.compute_block_scores
  rw [List.map_map, List.map_map]
  have hfun : ((fun p : String × ℚ => (alookup p.1 W₁).getD 0 * p.2) ∘
      fun p : String × BlockInput =>
      (p.1, moduleC_fusion.block_score p.2.B_match_score p.2.Bplus_trend_class
        p.2.Bplus_confidence p.2.process_correlation)) =
      ((fun p : String × ℚ => (alookup p.1 W₂).getD 0 * p.2) ∘
      fun p : String × BlockInput =>
      (p.1, moduleC_fusion.block_score p.2.B_match_score p.2.Bplus_trend_class
        p.2.Bplus_confidence p.2.process_correlation)) := by
    funext p
    simp only [Function.comp_apply]
    rw [hW]
  rw [hfun, (h.map _).sum_eq]

/-- C1: the fusion SSI is invariant under any reordering of the `blocks`
dictionary (the weighted sum, the equal-weight fallback and the
renormalisation are all order-independent for distinct block names), and
whenever the request's stability state is Critical_Instability the
returned SSI is at least 0.70 regardless of the weighted value. -/
theorem fusion_ssi_perm_and_floor (profiles : List (String × Profile)) (st : String)
    (pid : Option String) (stab : Option StabilityState)
    (l₁ l₂ : List (String × BlockInput)) (hperm : l₁.Perm l₂)
    (hnd : (l₁.map Prod.fst).Nodup) :
    (moduleC_fusion.run profiles (mkModuleCRequest st pid stab l₁)).SSI =
      (moduleC_fusion.run profiles (mkModuleCRequest st pid stab l₂)).SSI ∧
    (stab = some StabilityState.Critical_Instability →
      7 / 10 ≤ (moduleC_fusion.run profiles (mkModuleCRequest st pid stab l₁)).SSI) := by
  have hssi0 := aggregate_perm_eq hperm (norm_weights_lookup_eq profiles st hperm hnd)
  constructor
  · unfold moduleC_fusion.run mkModuleCRequest
    dsimp only
    rw [hssi0]
  · intro hstab
    unfold moduleC_fusion.run mkModuleCRequest
    dsimp only
    rw [if_pos hstab, qmax_eq_max]
    exact le_max_right _ _

/-- Closed instance of `fusion_ssi_perm_and_floor`: swapping the two
blocks of a critical-instability request leaves the SSI unchanged, and
the SSI is at least 0.70. -/
theorem fusion_ssi_perm_and_floor_witness :
    (moduleC_fusion.run fusionProfilesW (mkModuleCRequest "pump_train" none
        (some StabilityState.Critical_Instability)
        [("compA", fusionBlockA), ("compB", fusionBlockB)])).SSI =
      (moduleC_fusion.run fusionProfilesW (mkModuleCRequest "pump_train" none
        (some StabilityState.Critical_Instability)
        [("compB", fusionBlockB), ("compA", fusionBlockA)])).SSI ∧
    7 / 10 ≤ (moduleC_fusion.run fusionProfilesW (mkModuleCRequest "pump_train" none
        (some StabilityState.Critical_Instability)
        [("compA", fusionBlockA), ("compB", fusionBlockB)])).SSI := by
  have h := fusion_ssi_perm_and_floor fusionProfilesW "pump_train" none
    (some StabilityState.Critical_Instability)
    [("compA", fusionBlockA), ("compB", fusionBlockB)]
    [("compB", fusionBlockB), ("compA", fusionBlockA)]
    (List.Perm.swap ("compB", fusionBlockB) ("compA", fusionBlockA) [])
    (by simp)
  exact ⟨h.1, h.2 rfl⟩

end RapidAI
